import Mathlib

/-!
Shallow embedding of `tokio-boring/src/async_callbacks.rs`: the generic
future driver `with_ex_data_future`, the async certificate-selection
callback adapter installed by `set_async_select_certificate_callback`,
and the three entries of the `PrivateKeyMethod` bridge
(`sign`, `decrypt`, `complete`) built on `with_private_key_method`.

Modelling choices:
* A session's ex data is made explicit: the `TASK_WAKER_INDEX` slot holds
  `Option (Option Waker)` (`ex_data` may be unset, and the stored value is
  itself an `Option<Waker>`); the future slot holds
  `Option (Option (Fut _))` in the same way.
* A future (`ExDataFuture`) is modelled as a poll-driven state machine
  `Fut`: an identity tag, a count of polls performed so far, and a
  behaviour function giving, for each poll number, either `some result`
  (ready) or `none` (pending).  Polling advances the poll count in place,
  exactly like polling a pinned future through `as_mut()`.
* Wakers carry no observable behaviour relevant to the driver, so a wake
  handle is a bare `Nat` tag.
* Effects of one synchronous call are made observable by explicit state
  passing plus an event trace: creation-closure invocations, polls
  (tagged with the polled future's identity), slot writes
  (`*data = None` and `set_ex_data(index, Some(fut))`), and
  finish-closure invocations.
* `panic!` / `.expect(..)` unwinding is a distinguished outcome
  constructor carrying the panic message (as an enumerated tag).
-/

set_option autoImplicit false

namespace AsyncCallbacks

/-- Panic messages that can be raised by the embedded code. -/
inductive PanicMsg : Type where
  /-- `.expect("task waker should be set")` on a missing waker. -/
  | taskWakerShouldBeSet
  /-- `panic!("BUG: boring called complete without a pending operation")`. -/
  | completeWithoutPendingOperation
  deriving DecidableEq, Repr

/-- `std::task::Poll`. -/
inductive Poll (α : Type) : Type where
  | ready (value : α)
  | pending
  deriving DecidableEq, Repr

/-- Model of a pinned boxed future (`ExDataFuture<α>`): `id` is the
instance identity, `polls` the number of polls performed so far, and
`behave n` the outcome of poll number `n` (`none` = `Poll::Pending`,
`some a` = `Poll::Ready(a)`). -/
structure Fut (α : Type) : Type where
  id : Nat
  polls : Nat
  behave : Nat → Option α

/-- In-place mutation performed by one `poll` call: the poll counter
advances; identity and behaviour are untouched. -/
def Fut.advance {α : Type} (f : Fut α) : Fut α :=
  { f with polls := f.polls + 1 }

/-- One poll of the future: result of the current poll, plus the future
as left in place afterwards. -/
def Fut.pollOnce {α : Type} (f : Fut α) : Poll α × Fut α :=
  match f.behave f.polls with
  | some a => (Poll.ready a, f.advance)
  | none => (Poll.pending, f.advance)

/-- The per-session ex data the driver touches: the `TASK_WAKER_INDEX`
slot and the one future slot at the driver's `index` argument
(`SELECT_CERT_FUTURE_INDEX` or `SELECT_PRIVATE_KEY_METHOD_FUTURE_INDEX`,
fixed by the type instantiation).  Futures produce `Result<τ, ε>`. -/
structure Session (τ ε : Type) : Type where
  waker : Option (Option Nat)
  futSlot : Option (Option (Fut (Except ε τ)))

/-- The future currently stored in the slot, if any (`Some(Some(fut))`
both layers present). -/
def Session.stored {τ ε : Type} (s : Session τ ε) : Option (Fut (Except ε τ)) :=
  match s.futSlot with
  | some (some f) => some f
  | _ => none

/-- Observable events of one synchronous call, in order. -/
inductive Event : Type where
  /-- The creation closure (`create_fut`) was invoked. -/
  | invokeCreate
  /-- The future with this identity was polled once. -/
  | pollFut (id : Nat)
  /-- `*data = None`: the slot's inner option was overwritten with `None`. -/
  | clearSlot
  /-- `set_ex_data(index, Some(fut))` stored the future with this identity. -/
  | storeSlot (id : Nat)
  /-- The finish closure with this identity was invoked by an adapter. -/
  | invokeFinish (id : Nat)
  deriving DecidableEq, Repr

/-- Whether an event is a write to the future slot. -/
def Event.isSlotWrite : Event → Bool
  | Event.clearSlot => true
  | Event.storeSlot _ => true
  | _ => false

/-- The slot writes of a trace, in order. -/
def slotWrites (t : List Event) : List Event :=
  t.filter Event.isSlotWrite

/-- Number of polls in a trace. -/
def pollCount (t : List Event) : Nat :=
  (t.filter fun e => match e with | Event.pollFut _ => true | _ => false).length

/-- Outcome of the creation closure `create_fut`: it may panic (as
`complete`'s closure does under debug assertions), fail with an error
(propagated by `?`), or produce a future. -/
inductive CreateResult (τ ε : Type) : Type where
  | panicked (m : PanicMsg)
  | fail (e : ε)
  | mk (f : Fut (Except ε τ))

/-- What `with_ex_data_future` returns: either the call unwound with a
panic, or a `Poll<Result<τ, ε>>`. -/
inductive DriverOutcome (τ ε : Type) : Type where
  | panicked (m : PanicMsg)
  | pending
  | ready (r : Except ε τ)
  deriving Repr

/-- Result of one driver call: outcome, session state afterwards, and
the event trace of the call. -/
structure DriverRun (τ ε : Type) : Type where
  outcome : DriverOutcome τ ε
  sess : Session τ ε
  trace : List Event

/-- Embedding of `with_ex_data_future` (async_callbacks.rs:220-253).

1. Read the waker from `TASK_WAKER_INDEX` (`.cloned().flatten()`);
   `.expect("task waker should be set")` panics when absent.
2. `if let Some(data @ Some(_))`: a stored future is polled once through
   the slot; `ready!` returns `Pending` leaving the (mutated) future in
   place; on `Ready`, `*data = None` clears the slot first.
3. Otherwise `create_fut(ssl_handle)?` runs; an error is propagated as
   `Poll::Ready(Err(e))` without touching the slot.  The fresh future is
   polled once: `Ready` is returned directly without any slot write;
   on `Pending` the polled future is stored with `set_ex_data`. -/
def with_ex_data_future {τ ε : Type} (sess : Session τ ε)
    (create_fut : CreateResult τ ε) : DriverRun τ ε :=
  match sess.waker with
  | none => ⟨DriverOutcome.panicked PanicMsg.taskWakerShouldBeSet, sess, []⟩
  | some none => ⟨DriverOutcome.panicked PanicMsg.taskWakerShouldBeSet, sess, []⟩
  | some (some _) =>
    match sess.futSlot with
    | some (some f) =>
      match f.behave f.polls with
      | some r =>
        ⟨DriverOutcome.ready r, { sess with futSlot := some none },
          [Event.pollFut f.id, Event.clearSlot]⟩
      | none =>
        ⟨DriverOutcome.pending, { sess with futSlot := some (some f.advance) },
          [Event.pollFut f.id]⟩
    | _ =>
      match create_fut with
      | CreateResult.panicked m => ⟨DriverOutcome.panicked m, sess, [Event.invokeCreate]⟩
      | CreateResult.fail e =>
        ⟨DriverOutcome.ready (Except.error e), sess, [Event.invokeCreate]⟩
      | CreateResult.mk f =>
        match f.behave f.polls with
        | some r =>
          ⟨DriverOutcome.ready r, sess, [Event.invokeCreate, Event.pollFut f.id]⟩
        | none =>
          ⟨DriverOutcome.pending, { sess with futSlot := some (some f.advance) },
            [Event.invokeCreate, Event.pollFut f.id, Event.storeSlot f.id]⟩

/-- `AsyncSelectCertError`: a fatal error from async select-cert
callbacks (a fieldless struct). -/
inductive AsyncSelectCertError : Type where
  | mk
  deriving DecidableEq, Repr

/-- `AsyncPrivateKeyMethodError`: a fatal error from async private key
methods (a fieldless struct). -/
inductive AsyncPrivateKeyMethodError : Type where
  | mk
  deriving DecidableEq, Repr

/-- `ssl::SelectCertError`: sentinels recognized by the handshake
engine for the select-certificate callback. -/
inductive SelectCertError : Type where
  | RETRY
  | ERROR
  deriving DecidableEq, Repr

/-- `ssl::PrivateKeyMethodError`: sentinels recognized by the handshake
engine for private key methods. -/
inductive PrivateKeyMethodError : Type where
  | RETRY
  | FAILURE
  deriving DecidableEq, Repr

/-- `BoxSelectCertFinish`: a one-shot closure receiving the
`ClientHello` view.  `id` is the closure's identity and `result` the
outcome of invoking it. -/
structure SelectCertFinish : Type where
  id : Nat
  result : Except AsyncSelectCertError Unit

/-- `BoxPrivateKeyMethodFinish`: a one-shot closure receiving the ssl
handle and the output buffer; on success it reports the byte count. -/
structure PrivateKeyMethodFinish : Type where
  id : Nat
  result : Except AsyncPrivateKeyMethodError Nat

/-- Session whose future slot is the `SELECT_CERT_FUTURE_INDEX` slot. -/
abbrev CertSession : Type := Session SelectCertFinish AsyncSelectCertError

/-- Session whose future slot is the
`SELECT_PRIVATE_KEY_METHOD_FUTURE_INDEX` slot. -/
abbrev PkSession : Type := Session PrivateKeyMethodFinish AsyncPrivateKeyMethodError

/-- Result of the installed synchronous select-certificate callback:
`Result<(), ssl::SelectCertError>`, or a panic unwinding through it. -/
inductive CertCbResult : Type where
  | panicked (m : PanicMsg)
  | ok
  | err (e : SelectCertError)
  deriving DecidableEq, Repr

/-- Result of one `PrivateKeyMethod` entry:
`Result<usize, ssl::PrivateKeyMethodError>`, or a panic. -/
inductive PkCbResult : Type where
  | panicked (m : PanicMsg)
  | ok (n : Nat)
  | err (e : PrivateKeyMethodError)
  deriving DecidableEq, Repr

/-- Result of one adapter call: outcome, session afterwards, trace. -/
structure CertCbRun : Type where
  outcome : CertCbResult
  sess : CertSession
  trace : List Event

/-- Result of one private-key entry call. -/
structure PkCbRun : Type where
  outcome : PkCbResult
  sess : PkSession
  trace : List Event

/-- Embedding of the closure installed by
`set_async_select_certificate_callback` (async_callbacks.rs:70-86):
drive the future at `SELECT_CERT_FUTURE_INDEX`; `Pending` maps to
`Err(RETRY)`; `Ready(Err(_))` to `Err(ERROR)`; on `Ready(Ok(finish))`
the finish closure is invoked with the `ClientHello`, its error is
mapped to `Err(ERROR)` and its success to `Ok(())`.  The registered
async callback's result is the `create_fut` argument. -/
def async_select_certificate_callback (sess : CertSession)
    (create_fut : CreateResult SelectCertFinish AsyncSelectCertError) : CertCbRun :=
  match with_ex_data_future sess create_fut with
  | ⟨DriverOutcome.panicked m, s2, t⟩ => ⟨CertCbResult.panicked m, s2, t⟩
  | ⟨DriverOutcome.pending, s2, t⟩ => ⟨CertCbResult.err SelectCertError.RETRY, s2, t⟩
  | ⟨DriverOutcome.ready (Except.error _), s2, t⟩ =>
    ⟨CertCbResult.err SelectCertError.ERROR, s2, t⟩
  | ⟨DriverOutcome.ready (Except.ok finish), s2, t⟩ =>
    match finish.result with
    | Except.error _ =>
      ⟨CertCbResult.err SelectCertError.ERROR, s2, t ++ [Event.invokeFinish finish.id]⟩
    | Except.ok _ =>
      ⟨CertCbResult.ok, s2, t ++ [Event.invokeFinish finish.id]⟩

/-- Embedding of `with_private_key_method` (async_callbacks.rs:191-214):
drive the future at `SELECT_PRIVATE_KEY_METHOD_FUTURE_INDEX`; `Pending`
maps to `Err(RETRY)`; `Ready(Err(_))` to `Err(FAILURE)`; on
`Ready(Ok(finish))` the finish closure is invoked with the handle and
the output buffer, its error mapped to `Err(FAILURE)` and its success
returned as the byte count. -/
def with_private_key_method (sess : PkSession)
    (create_fut : CreateResult PrivateKeyMethodFinish AsyncPrivateKeyMethodError) : PkCbRun :=
  match with_ex_data_future sess create_fut with
  | ⟨DriverOutcome.panicked m, s2, t⟩ => ⟨PkCbResult.panicked m, s2, t⟩
  | ⟨DriverOutcome.pending, s2, t⟩ => ⟨PkCbResult.err PrivateKeyMethodError.RETRY, s2, t⟩
  | ⟨DriverOutcome.ready (Except.error _), s2, t⟩ =>
    ⟨PkCbResult.err PrivateKeyMethodError.FAILURE, s2, t⟩
  | ⟨DriverOutcome.ready (Except.ok finish), s2, t⟩ =>
    match finish.result with
    | Except.error _ =>
      ⟨PkCbResult.err PrivateKeyMethodError.FAILURE, s2,
        t ++ [Event.invokeFinish finish.id]⟩
    | Except.ok n =>
      ⟨PkCbResult.ok n, s2, t ++ [Event.invokeFinish finish.id]⟩

/-- `AsyncPrivateKeyMethodBridge::sign` (async_callbacks.rs:143-153):
drives the future with the creation closure calling the user method's
`sign`; the user method's result is the `create_fut` argument. -/
def AsyncPrivateKeyMethodBridge.sign (sess : PkSession)
    (create_fut : CreateResult PrivateKeyMethodFinish AsyncPrivateKeyMethodError) : PkCbRun :=
  with_private_key_method sess create_fut

/-- `AsyncPrivateKeyMethodBridge::decrypt` (async_callbacks.rs:155-164). -/
def AsyncPrivateKeyMethodBridge.decrypt (sess : PkSession)
    (create_fut : CreateResult PrivateKeyMethodFinish AsyncPrivateKeyMethodError) : PkCbRun :=
  with_private_key_method sess create_fut

/-- `AsyncPrivateKeyMethodBridge::complete` (async_callbacks.rs:166-182):
the creation closure panics under `cfg!(debug_assertions)` and returns
`Err(AsyncPrivateKeyMethodError)` otherwise.  `debug` is the build mode. -/
def AsyncPrivateKeyMethodBridge.complete (debug : Bool) (sess : PkSession) : PkCbRun :=
  with_private_key_method sess
    (if debug then CreateResult.panicked PanicMsg.completeWithoutPendingOperation
     else CreateResult.fail AsyncPrivateKeyMethodError.mk)

/-! Concrete fixtures, used to evaluate the embedded code on sample
sessions and futures. -/

/-- A waker slot holding a live wake handle. -/
def wakerSlotSet : Option (Option Nat) := some (some 0)

/-- A future that is pending on every poll. -/
def pendingFut : Fut (Except Unit Unit) := ⟨7, 0, fun _ => none⟩

/-- A future that is ready (with `Ok(())`) on every poll. -/
def readyFut : Fut (Except Unit Unit) := ⟨8, 0, fun _ => some (Except.ok ())⟩

/-- A session holding a stored pending future. -/
def sessWithStored : Session Unit Unit := ⟨wakerSlotSet, some (some pendingFut)⟩

/-- A session with an empty future slot. -/
def sessEmpty : Session Unit Unit := ⟨wakerSlotSet, none⟩

/-- A session whose waker slot was never populated. -/
def sessNoWaker : Session Unit Unit := ⟨none, none⟩

/-- A private-key finish closure reporting 64 signature bytes. -/
def pkFinishOk : PrivateKeyMethodFinish := ⟨3, Except.ok 64⟩

/-- A certificate finish closure that succeeds. -/
def certFinishOk : SelectCertFinish := ⟨4, Except.ok ()⟩

/-- A private-key future immediately ready with a successful finish
closure. -/
def pkReadyFut : Fut (Except AsyncPrivateKeyMethodError PrivateKeyMethodFinish) :=
  ⟨9, 0, fun _ => some (Except.ok pkFinishOk)⟩

/-- A certificate future immediately ready with a successful finish
closure. -/
def certReadyFut : Fut (Except AsyncSelectCertError SelectCertFinish) :=
  ⟨10, 0, fun _ => some (Except.ok certFinishOk)⟩

/-- A private-key session with a stored ready future. -/
def pkSessStored : PkSession := ⟨wakerSlotSet, some (some pkReadyFut)⟩

/-- A certificate session with a stored ready future. -/
def certSessStored : CertSession := ⟨wakerSlotSet, some (some certReadyFut)⟩

/-- A private-key session with an empty future slot. -/
def pkSessEmpty : PkSession := ⟨wakerSlotSet, none⟩

/-- A certificate session with an empty future slot. -/
def certSessEmpty : CertSession := ⟨wakerSlotSet, none⟩

/-! Helper lemmas: case characterizations of one driver call. -/

/-- With no wake handle in the waker slot, the driver panics at once. -/
theorem with_ex_data_future_no_waker {τ ε : Type} (s : Session τ ε)
    (c : CreateResult τ ε) (h : s.waker = none ∨ s.waker = some none) :
    with_ex_data_future s c =
      ⟨DriverOutcome.panicked PanicMsg.taskWakerShouldBeSet, s, []⟩ := by
  rcases h with h | h <;> simp [with_ex_data_future, h]

/-- With a wake handle and a stored future, the driver polls the stored
future once and branches on the poll result. -/
theorem with_ex_data_future_stored {τ ε : Type} (s : Session τ ε)
    (c : CreateResult τ ε) (w : Nat) (f : Fut (Except ε τ))
    (hw : s.waker = some (some w)) (hs : s.futSlot = some (some f)) :
    with_ex_data_future s c =
      match f.behave f.polls with
      | some r =>
        ⟨DriverOutcome.ready r, { s with futSlot := some none },
          [Event.pollFut f.id, Event.clearSlot]⟩
      | none =>
        ⟨DriverOutcome.pending, { s with futSlot := some (some f.advance) },
          [Event.pollFut f.id]⟩ := by
  cases hb : f.behave f.polls <;> simp [with_ex_data_future, hw, hs, hb]

/-- With a wake handle and no stored future, the driver runs the
creation closure and branches on its result and the first poll. -/
theorem with_ex_data_future_not_stored {τ ε : Type} (s : Session τ ε)
    (c : CreateResult τ ε) (w : Nat)
    (hw : s.waker = some (some w)) (hs : s.stored = none) :
    with_ex_data_future s c =
      match c with
      | CreateResult.panicked m => ⟨DriverOutcome.panicked m, s, [Event.invokeCreate]⟩
      | CreateResult.fail e =>
        ⟨DriverOutcome.ready (Except.error e), s, [Event.invokeCreate]⟩
      | CreateResult.mk f =>
        match f.behave f.polls with
        | some r =>
          ⟨DriverOutcome.ready r, s, [Event.invokeCreate, Event.pollFut f.id]⟩
        | none =>
          ⟨DriverOutcome.pending, { s with futSlot := some (some f.advance) },
            [Event.invokeCreate, Event.pollFut f.id, Event.storeSlot f.id]⟩ := by
  have h2 : s.futSlot = none ∨ s.futSlot = some none := by
    unfold Session.stored at hs
    rcases h : s.futSlot with _ | (_ | f)
    · exact Or.inl rfl
    · exact Or.inr rfl
    · rw [h] at hs; exact absurd hs (by simp)
  rcases h2 with h2 | h2 <;> cases c <;> simp [with_ex_data_future, hw, h2]

/-- The driver never touches the waker slot. -/
theorem with_ex_data_future_preserves_waker {τ ε : Type} (s : Session τ ε)
    (c : CreateResult τ ε) :
    (with_ex_data_future s c).sess.waker = s.waker := by
  rcases hw : s.waker with _ | (_ | w)
  · rw [with_ex_data_future_no_waker s c (Or.inl hw)]
    simp [hw]
  · rw [with_ex_data_future_no_waker s c (Or.inr hw)]
    simp [hw]
  · rcases hslot : s.futSlot with _ | (_ | f)
    · have hs : s.stored = none := by unfold Session.stored; rw [hslot]
      rw [with_ex_data_future_not_stored s c w hw hs]
      cases c with
      | panicked m => simp [hw]
      | fail e => simp [hw]
      | mk f => cases hb : f.behave f.polls <;> simp [hb, hw]
    · have hs : s.stored = none := by unfold Session.stored; rw [hslot]
      rw [with_ex_data_future_not_stored s c w hw hs]
      cases c with
      | panicked m => simp [hw]
      | fail e => simp [hw]
      | mk f => cases hb : f.behave f.polls <;> simp [hb, hw]
    · rw [with_ex_data_future_stored s c w f hw hslot]
      cases hb : f.behave f.polls <;> simp [hb, hw]

/-- The certificate adapter returns the session state the driver left. -/
theorem async_select_certificate_callback_sess (s : CertSession)
    (c : CreateResult SelectCertFinish AsyncSelectCertError) :
    (async_select_certificate_callback s c).sess = (with_ex_data_future s c).sess := by
  rcases h : with_ex_data_future s c with ⟨o, s2, t⟩
  rcases o with m | _ | r
  · simp [async_select_certificate_callback, h]
  · simp [async_select_certificate_callback, h]
  · rcases r with e | fin
    · simp [async_select_certificate_callback, h]
    · rcases hr : fin.result with e | u <;>
        simp [async_select_certificate_callback, h, hr]

/-- The private-key adapter returns the session state the driver left. -/
theorem with_private_key_method_sess (s : PkSession)
    (c : CreateResult PrivateKeyMethodFinish AsyncPrivateKeyMethodError) :
    (with_private_key_method s c).sess = (with_ex_data_future s c).sess := by
  rcases h : with_ex_data_future s c with ⟨o, s2, t⟩
  rcases o with m | _ | r
  · simp [with_private_key_method, h]
  · simp [with_private_key_method, h]
  · rcases r with e | fin
    · simp [with_private_key_method, h]
    · rcases hr : fin.result with e | u <;>
        simp [with_private_key_method, h, hr]

/-! Claim theorems. -/

/-- C1: when the slot already holds a stored future, the creation
closure is never invoked and the polled future is exactly the stored
instance (which, while pending, stays in the slot with only its poll
count advanced); and when the slot is empty and the freshly created
future's first poll is pending, the call performs exactly one slot
write, storing that future, and returns pending. -/
theorem stored_future_reused_and_pending_future_stored {τ ε : Type}
    (s : Session τ ε) (c : CreateResult τ ε) (w : Nat)
    (hw : s.waker = some (some w)) :
    (∀ f, s.futSlot = some (some f) →
      Event.invokeCreate ∉ (with_ex_data_future s c).trace ∧
      (with_ex_data_future s c).trace.head? = some (Event.pollFut f.id) ∧
      (f.behave f.polls = none →
        (with_ex_data_future s c).outcome = DriverOutcome.pending ∧
        (with_ex_data_future s c).sess.futSlot = some (some f.advance))) ∧
    (∀ f, s.stored = none → c = CreateResult.mk f → f.behave f.polls = none →
      slotWrites (with_ex_data_future s c).trace = [Event.storeSlot f.id] ∧
      (with_ex_data_future s c).sess.futSlot = some (some f.advance) ∧
      (with_ex_data_future s c).outcome = DriverOutcome.pending) := by
  constructor
  · intro f hs
    rw [with_ex_data_future_stored s c w f hw hs]
    cases hb : f.behave f.polls <;> simp [hb]
  · intro f hs hc hb
    rw [with_ex_data_future_not_stored s c w hw hs, hc]
    simp [hb, slotWrites, Event.isSlotWrite]

/-- C1 witness: on a session with a stored pending future the creation
closure is not invoked, and on an empty-slot session a pending fresh
future causes exactly one store of that future. -/
theorem stored_future_reused_and_pending_future_stored_witness :
    Event.invokeCreate ∉ (with_ex_data_future sessWithStored (CreateResult.fail ())).trace ∧
    slotWrites (with_ex_data_future sessEmpty (CreateResult.mk pendingFut)).trace =
      [Event.storeSlot pendingFut.id] :=
  ⟨((stored_future_reused_and_pending_future_stored sessWithStored
        (CreateResult.fail ()) 0 rfl).1 pendingFut rfl).1,
    ((stored_future_reused_and_pending_future_stored sessEmpty
        (CreateResult.mk pendingFut) 0 rfl).2 pendingFut rfl rfl rfl).1⟩

/-- C2: when the slot is empty and the fresh future is ready on its
first poll, the result is returned directly, the trace contains no slot
write, and the session (hence the empty slot) is left exactly as it
was. -/
theorem ready_first_poll_writes_nothing {τ ε : Type}
    (s : Session τ ε) (w : Nat) (f : Fut (Except ε τ)) (r : Except ε τ)
    (hw : s.waker = some (some w)) (hs : s.stored = none)
    (hb : f.behave f.polls = some r) :
    (with_ex_data_future s (CreateResult.mk f)).outcome = DriverOutcome.ready r ∧
    slotWrites (with_ex_data_future s (CreateResult.mk f)).trace = [] ∧
    (with_ex_data_future s (CreateResult.mk f)).sess = s := by
  rw [with_ex_data_future_not_stored s _ w hw hs]
  simp [hb, slotWrites, Event.isSlotWrite]

/-- C2 witness: a ready-on-first-poll future on an empty-slot session
returns its result and leaves the session untouched. -/
theorem ready_first_poll_writes_nothing_witness :
    (with_ex_data_future sessEmpty (CreateResult.mk readyFut)).outcome =
      DriverOutcome.ready (Except.ok ()) ∧
    slotWrites (with_ex_data_future sessEmpty (CreateResult.mk readyFut)).trace = [] ∧
    (with_ex_data_future sessEmpty (CreateResult.mk readyFut)).sess = sessEmpty :=
  ready_first_poll_writes_nothing sessEmpty 0 readyFut (Except.ok ()) rfl rfl rfl

/-- C5: when the slot is empty and the creation closure fails, the
error is propagated at once as the ready-error outcome, no future is
polled, the slot is never written and the session is unchanged; at the
adapter boundary this surfaces as the failure sentinel. -/
theorem creation_error_propagates_immediately :
    (∀ (τ ε : Type) (s : Session τ ε) (w : Nat) (e : ε),
      s.waker = some (some w) → s.stored = none →
      (with_ex_data_future s (CreateResult.fail e)).outcome =
        DriverOutcome.ready (Except.error e) ∧
      pollCount (with_ex_data_future s (CreateResult.fail e)).trace = 0 ∧
      slotWrites (with_ex_data_future s (CreateResult.fail e)).trace = [] ∧
      (with_ex_data_future s (CreateResult.fail e)).sess = s) ∧
    (∀ (s : CertSession) (w : Nat), s.waker = some (some w) → s.stored = none →
      (async_select_certificate_callback s
          (CreateResult.fail AsyncSelectCertError.mk)).outcome =
        CertCbResult.err SelectCertError.ERROR) ∧
    (∀ (s : PkSession) (w : Nat), s.waker = some (some w) → s.stored = none →
      (with_private_key_method s
          (CreateResult.fail AsyncPrivateKeyMethodError.mk)).outcome =
        PkCbResult.err PrivateKeyMethodError.FAILURE) := by
  refine ⟨?_, ?_, ?_⟩
  · intro τ ε s w e hw hs
    rw [with_ex_data_future_not_stored s _ w hw hs]
    simp [pollCount, slotWrites, Event.isSlotWrite]
  · intro s w hw hs
    have hd := with_ex_data_future_not_stored s
      (CreateResult.fail AsyncSelectCertError.mk) w hw hs
    simp [async_select_certificate_callback, hd]
  · intro s w hw hs
    have hd := with_ex_data_future_not_stored s
      (CreateResult.fail AsyncPrivateKeyMethodError.mk) w hw hs
    simp [with_private_key_method, hd]

/-- C5 witness: on an empty-slot session a failing creation closure
yields the ready-error outcome with no poll, and the certificate
adapter maps it to the failure sentinel. -/
theorem creation_error_propagates_immediately_witness :
    pollCount (with_ex_data_future sessEmpty (CreateResult.fail ())).trace = 0 ∧
    (async_select_certificate_callback certSessEmpty
        (CreateResult.fail AsyncSelectCertError.mk)).outcome =
      CertCbResult.err SelectCertError.ERROR :=
  ⟨(creation_error_propagates_immediately.1 Unit Unit sessEmpty 0 () rfl rfl).2.1,
    creation_error_propagates_immediately.2.1 certSessEmpty 0 rfl rfl⟩

/-- C8: when the waker slot yields no wake handle the driver panics
with the expected message before any effect (empty trace, session
unchanged); when a wake handle is installed and the creation closure
does not itself panic, no panic outcome is possible at all. -/
theorem missing_waker_panics_before_any_effect {τ ε : Type}
    (s : Session τ ε) (c : CreateResult τ ε) :
    (s.waker = none ∨ s.waker = some none →
      (with_ex_data_future s c).outcome =
        DriverOutcome.panicked PanicMsg.taskWakerShouldBeSet ∧
      (with_ex_data_future s c).trace = [] ∧
      (with_ex_data_future s c).sess = s) ∧
    (∀ w, s.waker = some (some w) → (∀ m, c ≠ CreateResult.panicked m) →
      ∀ m, (with_ex_data_future s c).outcome ≠ DriverOutcome.panicked m) := by
  constructor
  · intro h
    rw [with_ex_data_future_no_waker s c h]
    simp
  · intro w hw hnc m
    rcases hslot : s.futSlot with _ | (_ | f)
    · have hs : s.stored = none := by unfold Session.stored; rw [hslot]
      rw [with_ex_data_future_not_stored s c w hw hs]
      cases c with
      | panicked m2 => exact absurd rfl (hnc m2)
      | fail e => simp
      | mk f => cases hb : f.behave f.polls <;> simp [hb]
    · have hs : s.stored = none := by unfold Session.stored; rw [hslot]
      rw [with_ex_data_future_not_stored s c w hw hs]
      cases c with
      | panicked m2 => exact absurd rfl (hnc m2)
      | fail e => simp
      | mk f => cases hb : f.behave f.polls <;> simp [hb]
    · rw [with_ex_data_future_stored s c w f hw hslot]
      cases hb : f.behave f.polls <;> simp [hb]

/-- C8 witness: on a session without a waker the driver call panics
with the waker message and performs no effect. -/
theorem missing_waker_panics_before_any_effect_witness :
    (with_ex_data_future sessNoWaker (CreateResult.fail ())).outcome =
      DriverOutcome.panicked PanicMsg.taskWakerShouldBeSet ∧
    (with_ex_data_future sessNoWaker (CreateResult.fail ())).trace = [] :=
  ⟨((missing_waker_panics_before_any_effect sessNoWaker
      (CreateResult.fail ())).1 (Or.inl rfl)).1,
    ((missing_waker_panics_before_any_effect sessNoWaker
      (CreateResult.fail ())).1 (Or.inl rfl)).2.1⟩

/-- C3: when a stored future's poll returns ready (ok or err), the slot
is cleared before the driver returns; at both adapters the clear event
precedes the finish-closure invocation in the call's trace, and the
session afterwards has an empty slot. -/
theorem ready_clears_slot_before_finish :
    (∀ (τ ε : Type) (s : Session τ ε) (c : CreateResult τ ε) (w : Nat)
        (f : Fut (Except ε τ)) (r : Except ε τ),
      s.waker = some (some w) → s.futSlot = some (some f) →
      f.behave f.polls = some r →
      (with_ex_data_future s c).sess.futSlot = some none ∧
      (with_ex_data_future s c).sess.stored = none ∧
      (with_ex_data_future s c).trace = [Event.pollFut f.id, Event.clearSlot]) ∧
    (∀ (s : PkSession) (c : CreateResult PrivateKeyMethodFinish AsyncPrivateKeyMethodError)
        (w : Nat) (f : Fut (Except AsyncPrivateKeyMethodError PrivateKeyMethodFinish))
        (fin : PrivateKeyMethodFinish),
      s.waker = some (some w) → s.futSlot = some (some f) →
      f.behave f.polls = some (Except.ok fin) →
      (with_private_key_method s c).trace =
        [Event.pollFut f.id, Event.clearSlot] ++ [Event.invokeFinish fin.id] ∧
      (with_private_key_method s c).sess.stored = none) ∧
    (∀ (s : CertSession) (c : CreateResult SelectCertFinish AsyncSelectCertError)
        (w : Nat) (f : Fut (Except AsyncSelectCertError SelectCertFinish))
        (fin : SelectCertFinish),
      s.waker = some (some w) → s.futSlot = some (some f) →
      f.behave f.polls = some (Except.ok fin) →
      (async_select_certificate_callback s c).trace =
        [Event.pollFut f.id, Event.clearSlot] ++ [Event.invokeFinish fin.id] ∧
      (async_select_certificate_callback s c).sess.stored = none) := by
  refine ⟨?_, ?_, ?_⟩
  · intro τ ε s c w f r hw hs hb
    rw [with_ex_data_future_stored s c w f hw hs]
    simp [hb, Session.stored]
  · intro s c w f fin hw hs hb
    have hd : with_ex_data_future s c =
        ⟨DriverOutcome.ready (Except.ok fin), { s with futSlot := some none },
          [Event.pollFut f.id, Event.clearSlot]⟩ := by
      rw [with_ex_data_future_stored s c w f hw hs, hb]
    rcases hr : fin.result with e | u <;>
      simp [with_private_key_method, hd, hr, Session.stored]
  · intro s c w f fin hw hs hb
    have hd : with_ex_data_future s c =
        ⟨DriverOutcome.ready (Except.ok fin), { s with futSlot := some none },
          [Event.pollFut f.id, Event.clearSlot]⟩ := by
      rw [with_ex_data_future_stored s c w f hw hs, hb]
    rcases hr : fin.result with e | u <;>
      simp [async_select_certificate_callback, hd, hr, Session.stored]

/-- C3 witness: a stored ready private-key future leaves a trace whose
clear precedes the finish invocation, and the session ends with an
empty slot. -/
theorem ready_clears_slot_before_finish_witness :
    (with_private_key_method pkSessStored
        (CreateResult.fail AsyncPrivateKeyMethodError.mk)).trace =
      [Event.pollFut pkReadyFut.id, Event.clearSlot] ++
        [Event.invokeFinish pkFinishOk.id] ∧
    (with_private_key_method pkSessStored
        (CreateResult.fail AsyncPrivateKeyMethodError.mk)).sess.stored = none :=
  ready_clears_slot_before_finish.2.1 pkSessStored
    (CreateResult.fail AsyncPrivateKeyMethodError.mk) 0 pkReadyFut pkFinishOk rfl rfl rfl

/-- C4: at both adapter boundaries a pending driver result maps to the
retry sentinel, a ready error to the failure sentinel, and a ready
finish closure is invoked within the same call, its failure mapping to
the failure sentinel and its success to success (certificate) or to the
reported byte count (private key); `sign` and `decrypt` are exactly
`with_private_key_method`. -/
theorem adapter_sentinel_mapping :
    (∀ (s : CertSession) (c : CreateResult SelectCertFinish AsyncSelectCertError),
      ((with_ex_data_future s c).outcome = DriverOutcome.pending →
        (async_select_certificate_callback s c).outcome =
          CertCbResult.err SelectCertError.RETRY) ∧
      (∀ e, (with_ex_data_future s c).outcome = DriverOutcome.ready (Except.error e) →
        (async_select_certificate_callback s c).outcome =
          CertCbResult.err SelectCertError.ERROR) ∧
      (∀ fin, (with_ex_data_future s c).outcome = DriverOutcome.ready (Except.ok fin) →
        Event.invokeFinish fin.id ∈ (async_select_certificate_callback s c).trace ∧
        (async_select_certificate_callback s c).outcome =
          (match fin.result with
           | Except.error _ => CertCbResult.err SelectCertError.ERROR
           | Except.ok _ => CertCbResult.ok))) ∧
    (∀ (s : PkSession) (c : CreateResult PrivateKeyMethodFinish AsyncPrivateKeyMethodError),
      ((with_ex_data_future s c).outcome = DriverOutcome.pending →
        (with_private_key_method s c).outcome =
          PkCbResult.err PrivateKeyMethodError.RETRY) ∧
      (∀ e, (with_ex_data_future s c).outcome = DriverOutcome.ready (Except.error e) →
        (with_private_key_method s c).outcome =
          PkCbResult.err PrivateKeyMethodError.FAILURE) ∧
      (∀ fin, (with_ex_data_future s c).outcome = DriverOutcome.ready (Except.ok fin) →
        Event.invokeFinish fin.id ∈ (with_private_key_method s c).trace ∧
        (with_private_key_method s c).outcome =
          (match fin.result with
           | Except.error _ => PkCbResult.err PrivateKeyMethodError.FAILURE
           | Except.ok n => PkCbResult.ok n))) ∧
    (∀ s c, AsyncPrivateKeyMethodBridge.sign s c = with_private_key_method s c) ∧
    (∀ s c, AsyncPrivateKeyMethodBridge.decrypt s c = with_private_key_method s c) := by
  refine ⟨?_, ?_, fun s c => rfl, fun s c => rfl⟩
  · intro s c
    rcases h : with_ex_data_future s c with ⟨o, s2, t⟩
    refine ⟨?_, ?_, ?_⟩
    · intro ho
      simp at ho
      subst ho
      simp [async_select_certificate_callback, h]
    · intro e ho
      simp at ho
      subst ho
      simp [async_select_certificate_callback, h]
    · intro fin ho
      simp at ho
      subst ho
      rcases hr : fin.result with e | u <;>
        simp [async_select_certificate_callback, h, hr]
  · intro s c
    rcases h : with_ex_data_future s c with ⟨o, s2, t⟩
    refine ⟨?_, ?_, ?_⟩
    · intro ho
      simp at ho
      subst ho
      simp [with_private_key_method, h]
    · intro e ho
      simp at ho
      subst ho
      simp [with_private_key_method, h]
    · intro fin ho
      simp at ho
      subst ho
      rcases hr : fin.result with e | u <;>
        simp [with_private_key_method, h, hr]

/-- C4 witness: on a session with a stored ready certificate future,
the adapter invokes the finish closure in the same call and returns
success. -/
theorem adapter_sentinel_mapping_witness :
    Event.invokeFinish certFinishOk.id ∈
      (async_select_certificate_callback certSessStored
        (CreateResult.fail AsyncSelectCertError.mk)).trace ∧
    (async_select_certificate_callback certSessStored
        (CreateResult.fail AsyncSelectCertError.mk)).outcome = CertCbResult.ok :=
  (adapter_sentinel_mapping.1 certSessStored
    (CreateResult.fail AsyncSelectCertError.mk)).2.2 certFinishOk rfl

/-- C6: invoking `complete` on a session whose private-key slot holds
no stored future either panics or returns the failure sentinel, and
never returns a byte count. -/
theorem complete_without_pending_never_returns_bytes
    (debug : Bool) (s : PkSession) (hs : s.stored = none) :
    ((∃ m, (AsyncPrivateKeyMethodBridge.complete debug s).outcome =
        PkCbResult.panicked m) ∨
      (AsyncPrivateKeyMethodBridge.complete debug s).outcome =
        PkCbResult.err PrivateKeyMethodError.FAILURE) ∧
    ∀ n, (AsyncPrivateKeyMethodBridge.complete debug s).outcome ≠ PkCbResult.ok n := by
  rcases hwk : s.waker with _ | (_ | w)
  · have hd := with_ex_data_future_no_waker s
      (if debug then CreateResult.panicked PanicMsg.completeWithoutPendingOperation
        else CreateResult.fail AsyncPrivateKeyMethodError.mk) (Or.inl hwk)
    constructor
    · exact Or.inl ⟨PanicMsg.taskWakerShouldBeSet, by
        simp [AsyncPrivateKeyMethodBridge.complete, with_private_key_method, hd]⟩
    · intro n
      simp [AsyncPrivateKeyMethodBridge.complete, with_private_key_method, hd]
  · have hd := with_ex_data_future_no_waker s
      (if debug then CreateResult.panicked PanicMsg.completeWithoutPendingOperation
        else CreateResult.fail AsyncPrivateKeyMethodError.mk) (Or.inr hwk)
    constructor
    · exact Or.inl ⟨PanicMsg.taskWakerShouldBeSet, by
        simp [AsyncPrivateKeyMethodBridge.complete, with_private_key_method, hd]⟩
    · intro n
      simp [AsyncPrivateKeyMethodBridge.complete, with_private_key_method, hd]
  · cases debug
    · have hd := with_ex_data_future_not_stored s
        (CreateResult.fail AsyncPrivateKeyMethodError.mk) w hwk hs
      constructor
      · exact Or.inr (by
          simp [AsyncPrivateKeyMethodBridge.complete, with_private_key_method, hd])
      · intro n
        simp [AsyncPrivateKeyMethodBridge.complete, with_private_key_method, hd]
    · have hd := with_ex_data_future_not_stored s
        (CreateResult.panicked PanicMsg.completeWithoutPendingOperation) w hwk hs
      constructor
      · exact Or.inl ⟨PanicMsg.completeWithoutPendingOperation, by
          simp [AsyncPrivateKeyMethodBridge.complete, with_private_key_method, hd]⟩
      · intro n
        simp [AsyncPrivateKeyMethodBridge.complete, with_private_key_method, hd]

/-- C6 witness: `complete` without a pending future (release mode, live
waker) does not return a byte count. -/
theorem complete_without_pending_never_returns_bytes_witness :
    (AsyncPrivateKeyMethodBridge.complete false pkSessEmpty).outcome ≠
      PkCbResult.ok 64 :=
  (complete_without_pending_never_returns_bytes false pkSessEmpty rfl).2 64

/-- C7: every driver call polls at most once; exactly once when a
future is stored or the creation closure returns a future on an empty
slot, and zero times when the creation closure fails; a pending poll
always leaves a future (the very one polled) in the slot. -/
theorem driver_polls_at_most_once_and_keeps_pending {τ ε : Type}
    (s : Session τ ε) (c : CreateResult τ ε) (w : Nat)
    (hw : s.waker = some (some w)) :
    pollCount (with_ex_data_future s c).trace ≤ 1 ∧
    (∀ f, s.futSlot = some (some f) →
      pollCount (with_ex_data_future s c).trace = 1) ∧
    (∀ f, s.stored = none → c = CreateResult.mk f →
      pollCount (with_ex_data_future s c).trace = 1) ∧
    (∀ e, s.stored = none → c = CreateResult.fail e →
      pollCount (with_ex_data_future s c).trace = 0) ∧
    ((with_ex_data_future s c).outcome = DriverOutcome.pending →
      ∃ f, (with_ex_data_future s c).sess.stored = some f ∧
        Event.pollFut f.id ∈ (with_ex_data_future s c).trace) := by
  rcases hslot : s.futSlot with _ | (_ | f)
  · have hs : s.stored = none := by unfold Session.stored; rw [hslot]
    rw [with_ex_data_future_not_stored s c w hw hs]
    cases c with
    | panicked m => simp [pollCount, hslot]
    | fail e => simp [pollCount, hslot]
    | mk f =>
      cases hb : f.behave f.polls <;>
        simp [pollCount, hb, hslot, Session.stored, Fut.advance]
  · have hs : s.stored = none := by unfold Session.stored; rw [hslot]
    rw [with_ex_data_future_not_stored s c w hw hs]
    cases c with
    | panicked m => simp [pollCount, hslot]
    | fail e => simp [pollCount, hslot]
    | mk f =>
      cases hb : f.behave f.polls <;>
        simp [pollCount, hb, hslot, Session.stored, Fut.advance]
  · rw [with_ex_data_future_stored s c w f hw hslot]
    cases hb : f.behave f.polls <;>
      simp [pollCount, hb, hslot, Session.stored, Fut.advance]

/-- C7 witness: a call on a session with a stored future polls exactly
once. -/
theorem driver_polls_at_most_once_and_keeps_pending_witness :
    pollCount (with_ex_data_future sessWithStored (CreateResult.fail ())).trace = 1 :=
  (driver_polls_at_most_once_and_keeps_pending sessWithStored
    (CreateResult.fail ()) 0 rfl).2.1 pendingFut rfl

/-- C9: `complete` on an empty slot panics when debug assertions are
enabled and returns the failure sentinel without panicking when they
are disabled; in neither mode does it write the slot or change the
session. -/
theorem complete_defect_build_mode_dependent
    (debug : Bool) (s : PkSession) (w : Nat)
    (hw : s.waker = some (some w)) (hs : s.stored = none) :
    (debug = true →
      (AsyncPrivateKeyMethodBridge.complete debug s).outcome =
        PkCbResult.panicked PanicMsg.completeWithoutPendingOperation) ∧
    (debug = false →
      (AsyncPrivateKeyMethodBridge.complete debug s).outcome =
        PkCbResult.err PrivateKeyMethodError.FAILURE ∧
      ∀ m, (AsyncPrivateKeyMethodBridge.complete debug s).outcome ≠
        PkCbResult.panicked m) ∧
    slotWrites (AsyncPrivateKeyMethodBridge.complete debug s).trace = [] ∧
    (AsyncPrivateKeyMethodBridge.complete debug s).sess = s := by
  cases debug
  · have hd := with_ex_data_future_not_stored s
      (CreateResult.fail AsyncPrivateKeyMethodError.mk) w hw hs
    refine ⟨by simp, fun _ => ⟨?_, ?_⟩, ?_, ?_⟩ <;>
      simp [AsyncPrivateKeyMethodBridge.complete, with_private_key_method, hd,
        slotWrites, Event.isSlotWrite]
  · have hd := with_ex_data_future_not_stored s
      (CreateResult.panicked PanicMsg.completeWithoutPendingOperation) w hw hs
    refine ⟨fun _ => ?_, by simp, ?_, ?_⟩ <;>
      simp [AsyncPrivateKeyMethodBridge.complete, with_private_key_method, hd,
        slotWrites, Event.isSlotWrite]

/-- C9 witness: in release mode, `complete` on an empty slot returns
the failure sentinel and leaves the session unchanged. -/
theorem complete_defect_build_mode_dependent_witness :
    (AsyncPrivateKeyMethodBridge.complete false pkSessEmpty).outcome =
      PkCbResult.err PrivateKeyMethodError.FAILURE ∧
    (AsyncPrivateKeyMethodBridge.complete false pkSessEmpty).sess = pkSessEmpty :=
  ⟨((complete_defect_build_mode_dependent false pkSessEmpty 0 rfl rfl).2.1 rfl).1,
    (complete_defect_build_mode_dependent false pkSessEmpty 0 rfl rfl).2.2.2⟩

/-- C10: no operation of the engine ever writes the waker slot: the
driver and every adapter entry leave the waker slot's content exactly
as it was. -/
theorem waker_slot_never_written :
    (∀ (τ ε : Type) (s : Session τ ε) (c : CreateResult τ ε),
      (with_ex_data_future s c).sess.waker = s.waker) ∧
    (∀ (s : CertSession) (c : CreateResult SelectCertFinish AsyncSelectCertError),
      (async_select_certificate_callback s c).sess.waker = s.waker) ∧
    (∀ (s : PkSession) (c : CreateResult PrivateKeyMethodFinish AsyncPrivateKeyMethodError),
      (with_private_key_method s c).sess.waker = s.waker) ∧
    (∀ (s : PkSession) (c : CreateResult PrivateKeyMethodFinish AsyncPrivateKeyMethodError),
      (AsyncPrivateKeyMethodBridge.sign s c).sess.waker = s.waker) ∧
    (∀ (s : PkSession) (c : CreateResult PrivateKeyMethodFinish AsyncPrivateKeyMethodError),
      (AsyncPrivateKeyMethodBridge.decrypt s c).sess.waker = s.waker) ∧
    (∀ (debug : Bool) (s : PkSession),
      (AsyncPrivateKeyMethodBridge.complete debug s).sess.waker = s.waker) := by
  have hpk : ∀ s c, (with_private_key_method s c).sess.waker = s.waker := by
    intro s c
    rw [with_private_key_method_sess]
    exact with_ex_data_future_preserves_waker s c
  refine ⟨fun τ ε s c => with_ex_data_future_preserves_waker s c, ?_, hpk,
    hpk, hpk, fun debug s => hpk s _⟩
  intro s c
  rw [async_select_certificate_callback_sess]
  exact with_ex_data_future_preserves_waker s c

end AsyncCallbacks
